import Mathlib

/-!
Shallow embedding of the event-driven connection/session core of the
repository (`src/samples/libev/lib/{list,bus,buffer,session}.c`,
`src/samples/libev/http2d/{stream,http-session}.c`, and
`src/py/http2/http2/{session,stream}.c`), together with theorems that
settle the spec claims about it.

Conventions of the embedding:
- Machine integers `size_t`/`uint8_t` become `Nat`; signed error codes
  become `Int`.
- Opaque `void *` payloads and recipient identities become `Nat` tags:
  only identity of the pointer matters to the modelled code.
- An `expect(...)`/`abort()` in the C source is modelled either as an
  `Option` result (`none` = process abort) or as a precondition carried
  as a theorem hypothesis, as noted at each definition.
- The libev wake-pipe file descriptors and `ev_io` plumbing are
  external collaborators; only the write-outcome of the wake signal is
  kept, as an explicit parameter.
-/

namespace Garage

/-! ## Intrusive doubly-linked list (`src/samples/libev/lib/list.c`)

`list_insert(head, self)` links `self` in front of `*head` and makes it
the new head, so the C list is a prepend-to-front list and traversal via
`->next` visits the most recently inserted node first.  We model each
list directly as a Lean `List` whose head is the most recently inserted
node; `list_insert` is therefore `List.cons` and `list_remove` of the
head node is `List.tail`/`List.erase`. -/

/-- `list_insert`: the inserted node becomes the new head
(`*head = self` after linking `self` in front of the old head). -/
def list_insert {α : Type} (head : List α) (self : α) : List α :=
  self :: head

/-! ## Event bus (`src/samples/libev/lib/bus.c`) -/

/-- `enum message_type` from `lib/bus.h`. -/
inductive MessageType where
  | broadcast
  | anycast
deriving DecidableEq, Repr

/-- `struct bus_message`: channel, delivery mode, opaque payload
(the `void *data` pointer is modelled as a `Nat` tag). -/
structure BusMessage where
  channel : Nat
  type : MessageType
  data : Nat
deriving DecidableEq, Repr

/-- `struct bus`: per-channel recipient lists and the pending message
list.  Recipients are identified by `Nat` tags (pointer identity).
Both lists are kept in the C order: head = most recently inserted
(`list_insert` prepends).  The wake pipe and the `ev_io` watcher are
external and not part of the state. -/
structure Bus where
  recipients : Nat → List Nat
  messages : List BusMessage

/-- The empty bus right after `bus_init` (all lists empty). -/
def busInit : Bus :=
  { recipients := fun _ => [], messages := [] }

/-- `bus_register`: allocate a recipient and `list_insert` it into
`bus->recipients[channel]`, i.e. prepend it. -/
def bus_register (bus : Bus) (channel : Nat) (recipient : Nat) : Bus :=
  { bus with
    recipients := fun c =>
      if c = channel then list_insert (bus.recipients c) recipient
      else bus.recipients c }

/-- `bus_unregister`: `list_remove` the recipient node from
`bus->recipients[channel]` (removes that node, order of the rest kept). -/
def bus_unregister (bus : Bus) (channel : Nat) (recipient : Nat) : Bus :=
  { bus with
    recipients := fun c =>
      if c = channel then (bus.recipients c).erase recipient
      else bus.recipients c }

/-- Outcome of one `write()` on the wake pipe, as classified by the C
code: success, interrupted (`EINTR`), would-block (`EAGAIN` /
`EWOULDBLOCK`), or any other error. -/
inductive WriteResult where
  | ok
  | eintr
  | eagain
  | ewouldblock
  | err
deriving DecidableEq, Repr

/-- The `while ((nwrite = write(...)) == -1 && errno == EINTR);` retry
loop: the loop exits with the first non-`EINTR` outcome; `none` means
every attempt was interrupted and the loop never exits. -/
def firstNonEintr : List WriteResult → Option WriteResult
  | [] => none
  | .eintr :: rest => firstNonEintr rest
  | w :: _ => some w

/-- `bus_enqueue_message`: allocate the message, `list_insert` it into
`bus->messages` (prepend), then write one byte to the wake pipe; `w` is
the outcome of that write after the `EINTR` retry loop.  On an error
other than would-block the just-inserted message is removed again
(`list_remove` of the head) and the function returns `false`; on
success or would-block it returns `true` with the message left on the
queue. -/
def bus_enqueue_message (bus : Bus) (channel : Nat) (type : MessageType)
    (data : Nat) (w : WriteResult) : Bool × Bus :=
  let bus1 : Bus := { bus with
    messages := list_insert bus.messages ⟨channel, type, data⟩ }
  match w with
  | .err => (false, { bus1 with messages := bus1.messages.tail })
  | _ => (true, bus1)

/-- `bus_broadcast`. -/
def bus_broadcast (bus : Bus) (channel : Nat) (data : Nat)
    (w : WriteResult) : Bool × Bus :=
  bus_enqueue_message bus channel .broadcast data w

/-- `bus_anycast`. -/
def bus_anycast (bus : Bus) (channel : Nat) (data : Nat)
    (w : WriteResult) : Bool × Bus :=
  bus_enqueue_message bus channel .anycast data w

/-- `bus_cancel_messages`: walk `bus->messages` and remove (and free)
every message satisfying the predicate; the rest keep their order. -/
def bus_cancel_messages (bus : Bus) (predicate : BusMessage → Bool) : Bus :=
  { bus with messages := bus.messages.filter (fun m => !predicate m) }

/-- `bus_broadcast_now`: walk `bus->recipients[channel]` from the head
(most recently registered first) and invoke each recipient with the
payload.  A delivery is recorded as the pair (recipient, payload). -/
def bus_broadcast_now (recipients : Nat → List Nat) (channel : Nat)
    (data : Nat) : List (Nat × Nat) :=
  (recipients channel).map (fun r => (r, data))

/-- `bus_anycast_now`: invoke only the head of
`bus->recipients[channel]`, if any. -/
def bus_anycast_now (recipients : Nat → List Nat) (channel : Nat)
    (data : Nat) : List (Nat × Nat) :=
  match recipients channel with
  | [] => []
  | r :: _ => [(r, data)]

/-- One iteration body of the dispatch loop in `_on_message`: the
`switch (message->type)` that hands the message to `bus_broadcast_now`
or `bus_anycast_now`. -/
def deliverMessage (recipients : Nat → List Nat) (m : BusMessage) :
    List (Nat × Nat) :=
  match m.type with
  | .broadcast => bus_broadcast_now recipients m.channel m.data
  | .anycast => bus_anycast_now recipients m.channel m.data

/-- The message loop of `_on_message`: repeatedly take the current head
of `bus->messages`, remove it, and deliver it, until the queue is
empty.  Deliveries are returned in invocation order.  (In the C code a
recipient may mutate the queue mid-loop; the recipients modelled here
are pure observers, so processing the initial queue front-to-back is
the exact behaviour.) -/
def dispatchLoop (recipients : Nat → List Nat) :
    List BusMessage → List (Nat × Nat)
  | [] => []
  | m :: rest => deliverMessage recipients m ++ dispatchLoop recipients rest

/-- `_on_message` (dispatch pass): drain the queue, returning the
drained bus and the recipient invocations in order.  The wake-pipe
read-drain at the top of `_on_message` is I/O plumbing and is omitted. -/
def busDispatch (bus : Bus) : Bus × List (Nat × Nat) :=
  ({ bus with messages := [] }, dispatchLoop bus.recipients bus.messages)

/-- Enqueue a list of broadcast payloads in order on one channel, each
wake-pipe write succeeding. -/
def enqueueBroadcasts (bus : Bus) (channel : Nat) (payloads : List Nat) : Bus :=
  payloads.foldl (fun b d => (bus_broadcast b channel d .ok).2) bus

/-- `bus_enqueue_message` driven by the raw sequence of wake-pipe write
outcomes: the `EINTR` retry loop picks the first non-`EINTR` outcome;
`none` means the loop never exits. -/
def bus_enqueue_message_wake (bus : Bus) (channel : Nat) (type : MessageType)
    (data : Nat) (wakeWrites : List WriteResult) : Option (Bool × Bus) :=
  (firstNonEintr wakeWrites).map (bus_enqueue_message bus channel type data)

/-- Channel id from `src/samples/libev/lib/channels.h`. -/
def CHANNEL_SESSION_DATA_RECEIVED : Nat := 4

/-- Result of the `_recv` notification tail in
`src/samples/libev/lib/session.c`: either the broadcast was enqueued
(new bus state) or the process called `abort()`. -/
inductive NotifyResult where
  | ok (bus : Bus)
  | aborted

/-- The tail of `_recv` in `src/samples/libev/lib/session.c`:
`if (!bus_broadcast(session->bus, CHANNEL_SESSION_DATA_RECEIVED,
session)) abort();`.  `none` means the wake-write retry loop never
exits. -/
def sessionNotifyDataReceived (bus : Bus) (sessionTag : Nat)
    (wakeWrites : List WriteResult) : Option NotifyResult :=
  match bus_enqueue_message_wake bus CHANNEL_SESSION_DATA_RECEIVED
      .broadcast sessionTag wakeWrites with
  | none => none
  | some (true, b) => some (.ok b)
  | some (false, _) => some .aborted

/-! ### Helper lemmas about the bus -/

theorem dispatchLoop_append (recipients : Nat → List Nat)
    (l1 l2 : List BusMessage) :
    dispatchLoop recipients (l1 ++ l2)
      = dispatchLoop recipients l1 ++ dispatchLoop recipients l2 := by
  induction l1 with
  | nil => simp [dispatchLoop]
  | cons m rest ih => simp [dispatchLoop, ih]

theorem enqueueBroadcasts_messages (channel : Nat) (payloads : List Nat) :
    ∀ bus : Bus,
      (enqueueBroadcasts bus channel payloads).messages
        = (payloads.map
            (fun d => BusMessage.mk channel .broadcast d)).reverse
          ++ bus.messages := by
  induction payloads with
  | nil => intro bus; simp [enqueueBroadcasts]
  | cons d rest ih =>
      intro bus
      have step : enqueueBroadcasts bus channel (d :: rest)
          = enqueueBroadcasts ((bus_broadcast bus channel d .ok).2)
              channel rest := rfl
      rw [step, ih]
      simp [bus_broadcast, bus_enqueue_message, list_insert]

theorem enqueueBroadcasts_recipients (channel : Nat) (payloads : List Nat) :
    ∀ bus : Bus,
      (enqueueBroadcasts bus channel payloads).recipients
        = bus.recipients := by
  induction payloads with
  | nil => intro bus; simp [enqueueBroadcasts]
  | cons d rest ih =>
      intro bus
      have step : enqueueBroadcasts bus channel (d :: rest)
          = enqueueBroadcasts ((bus_broadcast bus channel d .ok).2)
              channel rest := rfl
      rw [step, ih]
      rfl

theorem dispatchLoop_reverse_broadcasts (recipients : Nat → List Nat)
    (channel r : Nat) (h : recipients channel = [r]) (payloads : List Nat) :
    dispatchLoop recipients
        ((payloads.map (fun d => BusMessage.mk channel .broadcast d)).reverse)
      = payloads.reverse.map (fun d => (r, d)) := by
  induction payloads with
  | nil => simp [dispatchLoop]
  | cons d rest ih =>
      simp only [List.map_cons, List.reverse_cons, dispatchLoop_append]
      rw [ih]
      simp [dispatchLoop, deliverMessage, bus_broadcast_now, h]

/-! ### Claims about the bus -/

/-- C1 (corrected), counterexample: with one recipient registered on
channel 0, broadcasting payload 10 then payload 20 before a single
dispatch pass delivers 20 first and 10 second — not the enqueue (FIFO)
order the claim states. -/
theorem busDispatch_not_fifo_counterexample :
    (busDispatch (enqueueBroadcasts (bus_register busInit 0 1) 0 [10, 20])).2
        = [(1, 20), (1, 10)] ∧
      (busDispatch (enqueueBroadcasts (bus_register busInit 0 1) 0 [10, 20])).2
        ≠ [(1, 10), (1, 20)] := by
  have hval : (busDispatch
      (enqueueBroadcasts (bus_register busInit 0 1) 0 [10, 20])).2
      = [(1, 20), (1, 10)] := rfl
  refine ⟨hval, ?_⟩
  rw [hval]
  simp

/-- C1 (corrected), amended claim: `bus_enqueue_message` prepends to
`bus->messages` (`list_insert` makes the new node the head) and
`_on_message` pops from the head, so a dispatch pass delivers the
messages enqueued before it in *reverse* enqueue (LIFO) order: the last
message enqueued is the first delivered. -/
theorem busDispatch_reverse_enqueue_order (channel r : Nat)
    (payloads : List Nat) :
    (busDispatch
        (enqueueBroadcasts (bus_register busInit channel r)
          channel payloads)).2
      = payloads.reverse.map (fun d => (r, d)) := by
  unfold busDispatch
  rw [enqueueBroadcasts_messages, enqueueBroadcasts_recipients]
  simp only [busInit, bus_register, list_insert, List.append_nil]
  exact dispatchLoop_reverse_broadcasts _ channel r (by simp) payloads

/-- C5 (corrected), counterexample: with recipients 1 then 2 registered
on channel 0, `bus_anycast_now` delivers to recipient 2 (the most
recently registered), not to recipient 1 as the claim states. -/
theorem bus_anycast_not_first_registered :
    bus_anycast_now
        (bus_register (bus_register busInit 0 1) 0 2).recipients 0 9
        = [(2, 9)] ∧
      bus_anycast_now
        (bus_register (bus_register busInit 0 1) 0 2).recipients 0 9
        ≠ [(1, 9)] := by
  have hval : bus_anycast_now
      (bus_register (bus_register busInit 0 1) 0 2).recipients 0 9
      = [(2, 9)] := rfl
  refine ⟨hval, ?_⟩
  rw [hval]
  simp

/-- C5 (corrected), amended claim: an anycast message on a channel with
at least one registered recipient is delivered to exactly one
recipient, namely the head of the channel's recipient list — which is
the *most recently* registered recipient still registered, since
`bus_register` prepends (`list_insert`). -/
theorem bus_anycast_most_recent (bus : Bus) (channel d r : Nat)
    (rs : List Nat) (h : bus.recipients channel = r :: rs) :
    bus_anycast_now bus.recipients channel d = [(r, d)] ∧
      ∀ r2 : Nat,
        (bus_register bus channel r2).recipients channel
          = r2 :: r :: rs := by
  constructor
  · simp [bus_anycast_now, h]
  · intro r2
    simp [bus_register, list_insert, h]

/-- Witness for `bus_anycast_most_recent` at a concrete bus. -/
theorem bus_anycast_most_recent_witness :
    (bus_register (bus_register busInit 0 1) 0 2).recipients 0 = [2, 1] ∧
      (bus_anycast_now
          (bus_register (bus_register busInit 0 1) 0 2).recipients 0 9
          = [(2, 9)] ∧
        ∀ r2 : Nat,
          (bus_register (bus_register (bus_register busInit 0 1) 0 2)
              0 r2).recipients 0 = r2 :: 2 :: [1]) :=
  ⟨rfl, bus_anycast_most_recent _ 0 9 2 [1] rfl⟩

/-- C6 (confirmed): enqueue a message matched by the predicate, then
`bus_cancel_messages` before any dispatch pass: the message is removed
from the queue (so no recipient is ever invoked with it), while the
queued messages not matching the predicate remain, and a dispatch pass
delivers exactly those remaining messages. -/
theorem bus_cancel_messages_spec (bus : Bus) (channel : Nat)
    (type : MessageType) (d : Nat) (predicate : BusMessage → Bool)
    (hpred : predicate ⟨channel, type, d⟩ = true) :
    (bus_cancel_messages
          (bus_enqueue_message bus channel type d .ok).2 predicate).messages
        = bus.messages.filter (fun m => !predicate m) ∧
      (busDispatch (bus_cancel_messages
          (bus_enqueue_message bus channel type d .ok).2 predicate)).2
        = dispatchLoop bus.recipients
            (bus.messages.filter (fun m => !predicate m)) := by
  have hmsg : (bus_cancel_messages
      (bus_enqueue_message bus channel type d .ok).2 predicate).messages
      = bus.messages.filter (fun m => !predicate m) := by
    simp [bus_enqueue_message, bus_cancel_messages, list_insert,
      List.filter_cons, hpred]
  refine ⟨hmsg, ?_⟩
  unfold busDispatch
  rw [hmsg]
  rfl

/-- Witness for `bus_cancel_messages_spec`: a queued non-matching
message (payload 5) survives cancellation and is still delivered, the
cancelled one (payload 7) is not. -/
theorem bus_cancel_messages_spec_witness :
    (fun m : BusMessage => m.data == 7) ⟨0, .broadcast, 7⟩ = true ∧
      ((bus_cancel_messages
            (bus_enqueue_message
              (Bus.mk (fun c => if c = 0 then [1] else [])
                [⟨0, .broadcast, 5⟩]) 0 .broadcast 7 .ok).2
            (fun m => m.data == 7)).messages
          = [⟨0, .broadcast, 5⟩].filter (fun m => !(m.data == 7)) ∧
        (busDispatch (bus_cancel_messages
            (bus_enqueue_message
              (Bus.mk (fun c => if c = 0 then [1] else [])
                [⟨0, .broadcast, 5⟩]) 0 .broadcast 7 .ok).2
            (fun m => m.data == 7))).2
          = dispatchLoop (fun c => if c = 0 then [1] else [])
              ([⟨0, .broadcast, 5⟩].filter (fun m => !(m.data == 7)))) :=
  ⟨rfl, bus_cancel_messages_spec _ 0 .broadcast 7 _ rfl⟩

/-- C7 (confirmed): when enqueuing a bus message, a wake-pipe write
failure other than would-block (with `EINTR` retried) makes
`bus_enqueue_message` remove the just-queued message and report
failure, upon which the enqueuing caller (`_recv` in
`src/samples/libev/lib/session.c`) aborts the process; a would-block
failure is ignored — the enqueue reports success with the message left
on the queue. -/
theorem bus_wake_write_failure_spec (bus : Bus) (s : Nat)
    (wakeWrites : List WriteResult) :
    (firstNonEintr wakeWrites = some .err →
        sessionNotifyDataReceived bus s wakeWrites = some .aborted ∧
          bus_enqueue_message_wake bus CHANNEL_SESSION_DATA_RECEIVED
              .broadcast s wakeWrites = some (false, bus)) ∧
      (firstNonEintr wakeWrites = some .eagain ∨
          firstNonEintr wakeWrites = some .ewouldblock →
        bus_enqueue_message_wake bus CHANNEL_SESSION_DATA_RECEIVED
            .broadcast s wakeWrites
          = some (true, { bus with
              messages :=
                ⟨CHANNEL_SESSION_DATA_RECEIVED, .broadcast, s⟩
                  :: bus.messages })) := by
  constructor
  · intro h
    constructor
    · simp [sessionNotifyDataReceived, bus_enqueue_message_wake, h,
        bus_enqueue_message, list_insert]
    · simp [bus_enqueue_message_wake, h, bus_enqueue_message, list_insert]
  · intro h
    rcases h with h | h <;>
      simp [bus_enqueue_message_wake, h, bus_enqueue_message, list_insert]

/-- Witness for `bus_wake_write_failure_spec`, exercising both the
hard-error branch (`EINTR` then another error: abort) and the
would-block branch (`EINTR` then `EAGAIN`: message kept). -/
theorem bus_wake_write_failure_spec_witness :
    (firstNonEintr [.eintr, .err] = some .err ∧
        sessionNotifyDataReceived busInit 3 [.eintr, .err]
            = some .aborted ∧
          bus_enqueue_message_wake busInit CHANNEL_SESSION_DATA_RECEIVED
              .broadcast 3 [.eintr, .err] = some (false, busInit)) ∧
      (firstNonEintr [.eintr, .eagain] = some .eagain ∧
        bus_enqueue_message_wake busInit CHANNEL_SESSION_DATA_RECEIVED
            .broadcast 3 [.eintr, .eagain]
          = some (true, { busInit with
              messages :=
                [⟨CHANNEL_SESSION_DATA_RECEIVED, .broadcast, 3⟩] })) :=
  ⟨⟨rfl, (bus_wake_write_failure_spec busInit 3 [.eintr, .err]).1 rfl⟩,
    ⟨rfl, (bus_wake_write_failure_spec busInit 3 [.eintr, .eagain]).2
      (Or.inl rfl)⟩⟩

/-! ## Flow buffer (`src/samples/libev/lib/buffer.c`)

`struct buffer` holds a byte array of `size` bytes and two cursors:
`incoming` (write cursor) and `outgoing` (read cursor).  The byte array
is modelled as a `List Nat` of length `size`; `size_t` cursors become
`Nat`.  Each `expect(...)` precondition of the C code is carried as a
theorem hypothesis, as noted per definition. -/

structure Buffer where
  data : List Nat
  incoming : Nat
  outgoing : Nat
  size : Nat
deriving DecidableEq, Repr

/-- `buffer_alloc`: fresh buffer of `size` bytes, both cursors 0 (the
`malloc`ed contents are arbitrary; they are never read before being
written, so zeros stand in). -/
def buffer_alloc (size : Nat) : Buffer :=
  { data := List.replicate size 0, incoming := 0, outgoing := 0, size := size }

/-- `buffer_used_space` (`expect`s `outgoing <= incoming`). -/
def buffer_used_space (b : Buffer) : Nat :=
  b.incoming - b.outgoing

/-- `buffer_is_full` (`expect`s `incoming <= size`): full exactly when
the write cursor has reached the capacity. -/
def buffer_is_full (b : Buffer) : Bool :=
  b.incoming == b.size

/-- `buffer_is_empty`. -/
def buffer_is_empty (b : Buffer) : Bool :=
  buffer_used_space b == 0

/-- Size of the slice returned by `buffer_incoming_view`:
`view->size = buffer->size - buffer->incoming` (free space at the
tail; `expect`s `incoming <= size`). -/
def buffer_incoming_view_size (b : Buffer) : Nat :=
  b.size - b.incoming

/-- Writing `bs` through the mutable slice of `buffer_incoming_view`
(a `memmove` into `buffer->buffer + incoming`, as `buffer_incoming_mem`
does); meaningful when `bs.length <= size - incoming`. -/
def writeIncomingView (b : Buffer) (bs : List Nat) : Buffer :=
  { b with
    data := b.data.take b.incoming ++ bs
      ++ b.data.drop (b.incoming + bs.length) }

/-- `buffer_incoming_provided`: advance the write cursor (`expect`s
`provided <= size - incoming`, carried as a hypothesis where needed). -/
def buffer_incoming_provided (b : Buffer) (provided : Nat) : Buffer :=
  { b with incoming := b.incoming + provided }

/-- `buffer_outgoing_view`: if the buffer is fully drained
(`outgoing == incoming`) both cursors are reset to 0, then the unread
region `[outgoing, incoming)` is exposed.  Returns the (possibly
reset) buffer and the bytes of the view. -/
def buffer_outgoing_view (b : Buffer) : Buffer × List Nat :=
  let b1 := if b.outgoing = b.incoming
    then { b with outgoing := 0, incoming := 0 } else b
  (b1, (b1.data.drop b1.outgoing).take (b1.incoming - b1.outgoing))

/-- `buffer_outgoing_consumed`: advance the read cursor (`expect`s
`consumed <= incoming - outgoing`); when the read cursor catches up
with the write cursor, both reset to 0. -/
def buffer_outgoing_consumed (b : Buffer) (consumed : Nat) : Buffer :=
  let b1 := { b with outgoing := b.outgoing + consumed }
  if b1.outgoing = b1.incoming
  then { b1 with outgoing := 0, incoming := 0 } else b1

/-- The unread bytes of a buffer: region `[outgoing, incoming)` of the
byte array. -/
def bufferContent (b : Buffer) : List Nat :=
  (b.data.drop b.outgoing).take (b.incoming - b.outgoing)

/-- Cursor invariant of `struct buffer`:
`0 <= outgoing <= incoming <= size` (the lower bound is inherent to
`Nat`, mirroring `size_t`) together with the array having exactly
`size` bytes. -/
def BufferInv (b : Buffer) : Prop :=
  b.outgoing ≤ b.incoming ∧ b.incoming ≤ b.size ∧ b.data.length = b.size

/-- One incoming- or outgoing-side operation of the round-trip
(`buffer_incoming_mem`-style write, `buffer_outgoing_mem`-style read). -/
inductive BufferOp where
  | provide (bs : List Nat)
  | consume (n : Nat)
deriving DecidableEq, Repr

/-- One operation: `provide bs` writes `bs` through the incoming view
and calls `buffer_incoming_provided`; `consume n` takes the outgoing
view, reads its first `n` bytes and calls `buffer_outgoing_consumed`.
Returns the new state, the bytes written and the bytes observed. -/
def bufferStep (b : Buffer) : BufferOp → Buffer × List Nat × List Nat
  | .provide bs =>
      (buffer_incoming_provided (writeIncomingView b bs) bs.length, bs, [])
  | .consume n =>
      let bv := buffer_outgoing_view b
      (buffer_outgoing_consumed bv.1 n, [], bv.2.take n)

/-- Run a sequence of buffer operations, concatenating the bytes
written on the incoming side and the bytes observed on the outgoing
side. -/
def bufferRun (b : Buffer) : List BufferOp → Buffer × List Nat × List Nat
  | [] => (b, [], [])
  | op :: rest =>
      let s := bufferStep b op
      let r := bufferRun s.1 rest
      (r.1, s.2.1 ++ r.2.1, s.2.2 ++ r.2.2)

/-- The `expect` preconditions of the C code along a run: each
`provide` stays within free space, each `consume` within the unread
size. -/
def validOps : Buffer → List BufferOp → Bool
  | _, [] => true
  | b, .provide bs :: rest =>
      decide (bs.length ≤ b.size - b.incoming)
        && validOps (bufferStep b (.provide bs)).1 rest
  | b, .consume n :: rest =>
      decide (n ≤ b.incoming - b.outgoing)
        && validOps (bufferStep b (.consume n)).1 rest

/-! ### Helper lemmas about the buffer -/

theorem take_drop_append_middle (d bs : List Nat) (o i : Nat)
    (h1 : o ≤ i) (h2 : i + bs.length ≤ d.length) :
    ((d.take i ++ bs ++ d.drop (i + bs.length)).drop o).take
        (i + bs.length - o)
      = (d.drop o).take (i - o) ++ bs := by
  have hta : (d.take i).length = i := by
    rw [List.length_take]; omega
  rw [List.append_assoc, List.drop_append_eq_append_drop, hta]
  have ho : o - i = 0 := by omega
  rw [ho, List.drop_zero, List.take_append_eq_append_take]
  have hlen2 : ((d.take i).drop o).length = i - o := by
    rw [List.length_drop, hta]
  rw [List.take_of_length_le (by rw [hlen2]; omega), hlen2]
  have h5 : i + bs.length - o - (i - o) = bs.length := by omega
  rw [h5, List.take_append_eq_append_take, List.take_length,
    Nat.sub_self, List.take_zero, List.append_nil, List.drop_take]

theorem bufferContent_provide (b : Buffer) (bs : List Nat)
    (hInv : BufferInv b) (hlen : bs.length ≤ b.size - b.incoming) :
    bufferContent ((bufferStep b (.provide bs)).1)
      = bufferContent b ++ bs := by
  obtain ⟨h1, h2, h3⟩ := hInv
  show ((b.data.take b.incoming ++ bs
        ++ b.data.drop (b.incoming + bs.length)).drop b.outgoing).take
      (b.incoming + bs.length - b.outgoing)
    = (b.data.drop b.outgoing).take (b.incoming - b.outgoing) ++ bs
  exact take_drop_append_middle b.data bs b.outgoing b.incoming h1
    (by omega)

theorem bufferContent_consume (b : Buffer) (n : Nat) (hInv : BufferInv b)
    (hn : n ≤ b.incoming - b.outgoing) :
    (bufferStep b (.consume n)).2.2
        ++ bufferContent ((bufferStep b (.consume n)).1)
      = bufferContent b := by
  obtain ⟨h1, h2, h3⟩ := hInv
  by_cases hoi : b.outgoing = b.incoming
  · have hn0 : n = 0 := by omega
    subst hn0
    simp [bufferStep, buffer_outgoing_view, buffer_outgoing_consumed,
      bufferContent, hoi]
  · have hview : bufferStep b (.consume n)
        = (buffer_outgoing_consumed b n, [],
            ((b.data.drop b.outgoing).take (b.incoming - b.outgoing)).take
              n) := by
      simp [bufferStep, buffer_outgoing_view, hoi]
    rw [hview]
    have htake : ((b.data.drop b.outgoing).take
          (b.incoming - b.outgoing)).take n
        = (b.data.drop b.outgoing).take n := by
      rw [List.take_take, Nat.min_eq_left hn]
    by_cases hend : b.outgoing + n = b.incoming
    · have : buffer_outgoing_consumed b n
          = { b with outgoing := 0, incoming := 0 } := by
        simp [buffer_outgoing_consumed, hend]
      rw [this, htake]
      simp [bufferContent]
      have : n = b.incoming - b.outgoing := by omega
      rw [this]
    · have : buffer_outgoing_consumed b n
          = { b with outgoing := b.outgoing + n } := by
        simp [buffer_outgoing_consumed, hend]
      rw [this, htake]
      show (b.data.drop b.outgoing).take n
          ++ (b.data.drop (b.outgoing + n)).take
              (b.incoming - (b.outgoing + n))
        = (b.data.drop b.outgoing).take (b.incoming - b.outgoing)
      rw [← List.drop_drop, ← List.take_add]
      congr 1
      omega

theorem bufferStep_provide_inv (b : Buffer) (bs : List Nat)
    (hInv : BufferInv b) (hlen : bs.length ≤ b.size - b.incoming) :
    BufferInv ((bufferStep b (.provide bs)).1) := by
  obtain ⟨h1, h2, h3⟩ := hInv
  refine ⟨?_, ?_, ?_⟩
  · show b.outgoing ≤ b.incoming + bs.length
    omega
  · show b.incoming + bs.length ≤ b.size
    omega
  · show (b.data.take b.incoming ++ bs
        ++ b.data.drop (b.incoming + bs.length)).length = b.size
    simp [List.length_take, List.length_drop]
    omega

theorem bufferStep_consume_inv (b : Buffer) (n : Nat)
    (hInv : BufferInv b) (hn : n ≤ b.incoming - b.outgoing) :
    BufferInv ((bufferStep b (.consume n)).1) := by
  obtain ⟨h1, h2, h3⟩ := hInv
  unfold bufferStep buffer_outgoing_view buffer_outgoing_consumed
  unfold BufferInv
  by_cases hoi : b.outgoing = b.incoming
  all_goals simp [hoi]
  all_goals split
  all_goals simp_all
  all_goals omega

theorem bufferRun_spec (ops : List BufferOp) :
    ∀ b : Buffer, BufferInv b → validOps b ops = true →
      (bufferRun b ops).2.2 ++ bufferContent (bufferRun b ops).1
          = bufferContent b ++ (bufferRun b ops).2.1 ∧
        BufferInv (bufferRun b ops).1 := by
  induction ops with
  | nil =>
      intro b hInv _
      simpa [bufferRun] using hInv
  | cons op rest ih =>
      intro b hInv hv
      cases op with
      | provide bs =>
          have hv' : bs.length ≤ b.size - b.incoming ∧
              validOps (bufferStep b (.provide bs)).1 rest = true := by
            simpa [validOps, Bool.and_eq_true, decide_eq_true_eq] using hv
          have hlen := hv'.1
          have hInv1 := bufferStep_provide_inv b bs hInv hlen
          obtain ⟨ihEq, ihInv⟩ :=
            ih (bufferStep b (.provide bs)).1 hInv1 hv'.2
          have hcontent := bufferContent_provide b bs hInv hlen
          refine ⟨?_, ihInv⟩
          show ([] ++ (bufferRun (bufferStep b (.provide bs)).1 rest).2.2)
              ++ bufferContent
                (bufferRun (bufferStep b (.provide bs)).1 rest).1
            = bufferContent b
              ++ (bs ++ (bufferRun (bufferStep b (.provide bs)).1
                rest).2.1)
          rw [List.nil_append, ihEq, hcontent, List.append_assoc]
      | consume n =>
          have hv' : n ≤ b.incoming - b.outgoing ∧
              validOps (bufferStep b (.consume n)).1 rest = true := by
            simpa [validOps, Bool.and_eq_true, decide_eq_true_eq] using hv
          have hn := hv'.1
          have hInv1 := bufferStep_consume_inv b n hInv hn
          obtain ⟨ihEq, ihInv⟩ :=
            ih (bufferStep b (.consume n)).1 hInv1 hv'.2
          have hcontent := bufferContent_consume b n hInv hn
          refine ⟨?_, ihInv⟩
          show ((bufferStep b (.consume n)).2.2
                ++ (bufferRun (bufferStep b (.consume n)).1 rest).2.2)
              ++ bufferContent
                (bufferRun (bufferStep b (.consume n)).1 rest).1
            = bufferContent b
              ++ ([] ++ (bufferRun (bufferStep b (.consume n)).1
                rest).2.1)
          rw [List.append_assoc, ihEq, ← List.append_assoc, hcontent,
            List.nil_append]

theorem bufferAlloc_inv (size : Nat) : BufferInv (buffer_alloc size) := by
  refine ⟨Nat.le_refl 0, Nat.zero_le size, ?_⟩
  simp [buffer_alloc]

/-! ### Claims about the buffer -/

/-- C8 (confirmed): for any interleaving of incoming writes
(`incoming_view` write then `incoming_provided`, within free space) and
outgoing reads (`outgoing_view` read then `outgoing_consumed`, within
unread size) starting from a fresh buffer, the bytes observed on the
outgoing side together with the bytes still unread equal the bytes
written on the incoming side — so the outgoing side observes exactly a
prefix of the written byte sequence, in the same order. -/
theorem buffer_roundtrip_in_order (size : Nat) (ops : List BufferOp)
    (hv : validOps (buffer_alloc size) ops = true) :
    (bufferRun (buffer_alloc size) ops).2.2
          ++ bufferContent (bufferRun (buffer_alloc size) ops).1
        = (bufferRun (buffer_alloc size) ops).2.1 ∧
      List.IsPrefix (bufferRun (buffer_alloc size) ops).2.2
        (bufferRun (buffer_alloc size) ops).2.1 := by
  obtain ⟨hEq, _⟩ := bufferRun_spec ops (buffer_alloc size)
    (bufferAlloc_inv size) hv
  have hinit : bufferContent (buffer_alloc size) = [] := by
    simp [bufferContent, buffer_alloc]
  rw [hinit, List.nil_append] at hEq
  exact ⟨hEq, ⟨bufferContent (bufferRun (buffer_alloc size) ops).1, hEq⟩⟩

/-- Witness for `buffer_roundtrip_in_order`: write bytes 7, 8 then read
one byte; the outgoing side has observed `[7]` and byte 8 is still
unread. -/
theorem buffer_roundtrip_in_order_witness :
    validOps (buffer_alloc 2) [.provide [7, 8], .consume 1] = true ∧
      ((bufferRun (buffer_alloc 2) [.provide [7, 8], .consume 1]).2.2
            ++ bufferContent
              (bufferRun (buffer_alloc 2) [.provide [7, 8], .consume 1]).1
          = (bufferRun (buffer_alloc 2)
              [.provide [7, 8], .consume 1]).2.1 ∧
        List.IsPrefix
          (bufferRun (buffer_alloc 2) [.provide [7, 8], .consume 1]).2.2
          (bufferRun (buffer_alloc 2) [.provide [7, 8], .consume 1]).2.1) :=
  ⟨by decide, buffer_roundtrip_in_order 2 [.provide [7, 8], .consume 1]
    (by decide)⟩

/-- C9 (confirmed): every state-changing buffer operation —
`buffer_alloc`, `buffer_incoming_provided` (count within free space),
`buffer_outgoing_consumed` (count within unread size), the cursor reset
performed by `buffer_outgoing_view`, and writing through the
`buffer_incoming_view` slice — preserves the invariant
`0 <= outgoing <= incoming <= size` (the lower bound holds inherently
for the `size_t`-as-`Nat` cursors); `buffer_used_space`,
`buffer_is_full`, `buffer_is_empty` and the view sizes read the state
without mutating it. -/
theorem buffer_ops_preserve_invariant (n k : Nat) (bs : List Nat)
    (b : Buffer) (hInv : BufferInv b) :
    BufferInv (buffer_alloc n) ∧
      (k ≤ b.size - b.incoming → BufferInv (buffer_incoming_provided b k)) ∧
      (k ≤ b.incoming - b.outgoing →
        BufferInv (buffer_outgoing_consumed b k)) ∧
      BufferInv (buffer_outgoing_view b).1 ∧
      (bs.length ≤ b.size - b.incoming →
        BufferInv (writeIncomingView b bs)) := by
  obtain ⟨h1, h2, h3⟩ := hInv
  refine ⟨bufferAlloc_inv n, ?_, ?_, ?_, ?_⟩
  · intro hk
    exact ⟨by simp [buffer_incoming_provided]; omega,
      by simp [buffer_incoming_provided]; omega,
      by simp [buffer_incoming_provided, h3]⟩
  · intro hk
    by_cases hend : b.outgoing + k = b.incoming
    · have : buffer_outgoing_consumed b k
          = { b with outgoing := 0, incoming := 0 } := by
        simp [buffer_outgoing_consumed, hend]
      rw [this]
      exact ⟨Nat.le_refl 0, Nat.zero_le _, h3⟩
    · have : buffer_outgoing_consumed b k
          = { b with outgoing := b.outgoing + k } := by
        simp [buffer_outgoing_consumed, hend]
      rw [this]
      refine ⟨?_, h2, h3⟩
      show b.outgoing + k ≤ b.incoming
      omega
  · unfold buffer_outgoing_view BufferInv
    by_cases hoi : b.outgoing = b.incoming <;> simp_all
  · intro hk
    refine ⟨by simp [writeIncomingView]; omega,
      by simp [writeIncomingView]; omega, ?_⟩
    show (b.data.take b.incoming ++ bs
        ++ b.data.drop (b.incoming + bs.length)).length = b.size
    simp [List.length_take, List.length_drop]
    omega

/-- Witness for `buffer_ops_preserve_invariant` at a concrete mid-run
buffer state. -/
theorem buffer_ops_preserve_invariant_witness :
    BufferInv (Buffer.mk [1, 2, 3] 2 1 3) ∧
      (BufferInv (buffer_alloc 4) ∧
        (1 ≤ (Buffer.mk [1, 2, 3] 2 1 3).size
              - (Buffer.mk [1, 2, 3] 2 1 3).incoming →
          BufferInv (buffer_incoming_provided (Buffer.mk [1, 2, 3] 2 1 3) 1)) ∧
        (1 ≤ (Buffer.mk [1, 2, 3] 2 1 3).incoming
              - (Buffer.mk [1, 2, 3] 2 1 3).outgoing →
          BufferInv (buffer_outgoing_consumed (Buffer.mk [1, 2, 3] 2 1 3) 1)) ∧
        BufferInv (buffer_outgoing_view (Buffer.mk [1, 2, 3] 2 1 3)).1 ∧
        ([9].length ≤ (Buffer.mk [1, 2, 3] 2 1 3).size
              - (Buffer.mk [1, 2, 3] 2 1 3).incoming →
          BufferInv (writeIncomingView (Buffer.mk [1, 2, 3] 2 1 3) [9]))) :=
  ⟨⟨by decide, by decide, by decide⟩,
    buffer_ops_preserve_invariant 4 1 [9] (Buffer.mk [1, 2, 3] 2 1 3)
      ⟨by decide, by decide, by decide⟩⟩

/-- C10 (confirmed): `buffer_is_full` compares the write cursor with
the capacity (`incoming == size`), not `used_space` with the capacity;
the cursors reset to 0 only when the read cursor catches up with the
write cursor, so the state reached from a fresh 2-byte buffer by
writing two bytes and consuming one is full with an empty incoming
view while `used_space` is strictly below the capacity (partially
consumed data is never compacted). -/
theorem buffer_is_full_write_cursor :
    (∀ b : Buffer, buffer_is_full b = (b.incoming == b.size)) ∧
      validOps (buffer_alloc 2) [.provide [5, 6], .consume 1] = true ∧
      buffer_is_full
        (bufferRun (buffer_alloc 2) [.provide [5, 6], .consume 1]).1
        = true ∧
      buffer_incoming_view_size
        (bufferRun (buffer_alloc 2) [.provide [5, 6], .consume 1]).1 = 0 ∧
      buffer_used_space
          (bufferRun (buffer_alloc 2) [.provide [5, 6], .consume 1]).1
        < (bufferRun (buffer_alloc 2) [.provide [5, 6], .consume 1]).1.size :=
  ⟨fun _ => rfl, by decide, by decide, by decide, by decide⟩

/-! ## HTTP session graceful shutdown
(`src/samples/libev/http2d/http-session.c`)

The shutdown-relevant state of `struct http_session` is the
`shutdown_event` recipient handle (`none`/`some` for NULL/non-NULL)
plus whether `session_del(base_session)` — which stops the watchers,
frees the buffers and closes the transport fd — has been called.  The
side effects of the shutdown path are recorded as an action list. -/

inductive ShutdownAction where
  | checkWantWrite
  | flushSendBuffer
  | registerEmptyEvent
  | unregisterEmptyEvent
  | sessionDel
deriving DecidableEq, Repr

/-- Shutdown-relevant state of `struct http_session`. -/
structure HttpSession where
  shutdownEvent : Bool
  deleted : Bool
deriving DecidableEq, Repr

/-- A fresh session after `http_session_init`: no shutdown recipient
registered, transport open. -/
def httpSessionInit : HttpSession :=
  { shutdownEvent := false, deleted := false }

/-- `http_session_graceful_shutdown`: if a shutdown is already pending
(`session->shutdown_event` non-NULL) return immediately; otherwise
check want-write, flush the send buffer
(`session_flush_send_buffer`), and register `_send_buffer_empty` on
`CHANNEL_SESSION_SEND_BUFFER_EMPTY`, storing the handle. -/
def http_session_graceful_shutdown (s : HttpSession) :
    HttpSession × List ShutdownAction :=
  if s.shutdownEvent then (s, [])
  else ({ s with shutdownEvent := true },
    [.checkWantWrite, .flushSendBuffer, .registerEmptyEvent])

/-- `_send_buffer_empty`: unregister the shutdown recipient, clear the
handle, and call `session_del(base_session)` — only here are the
transport and Session resources released on the graceful path. -/
def sendBufferEmptyHandler (s : HttpSession) :
    HttpSession × List ShutdownAction :=
  ({ s with shutdownEvent := false, deleted := true },
    [.unregisterEmptyEvent, .sessionDel])

/-- Shutdown-relevant events a session observes: a graceful-shutdown
request, or the send-buffer-emptied bus event (whose handler runs only
while the recipient is registered). -/
inductive SessionEvent where
  | graceful
  | bufferEmptied
deriving DecidableEq, Repr

/-- One event step of the session. -/
def httpSessionStep (s : HttpSession) : SessionEvent → HttpSession
  | .graceful => (http_session_graceful_shutdown s).1
  | .bufferEmptied =>
      if s.shutdownEvent then (sendBufferEmptyHandler s).1 else s

/-- Run a sequence of session events. -/
def httpSessionRun (s : HttpSession) (events : List SessionEvent) :
    HttpSession :=
  events.foldl httpSessionStep s

/-- C3 (confirmed): after `http_session_graceful_shutdown` is
requested, the transport and Session resources (`session_del`) are
released only when the send-buffer-emptied bus event fires — along any
event sequence from a fresh session containing no such event the
session is never deleted, however many shutdown requests occur; a
second `http_session_graceful_shutdown` while one is pending returns
at once, with no flush and no re-subscription (empty action list); and
when the event does fire with a shutdown pending, its handler
unregisters the recipient and releases the session. -/
theorem http_session_graceful_shutdown_spec (events : List SessionEvent)
    (s : HttpSession)
    (hev : events.contains SessionEvent.bufferEmptied = false)
    (hpend : s.shutdownEvent = true) :
    (httpSessionRun httpSessionInit events).deleted = false ∧
      http_session_graceful_shutdown s = (s, []) ∧
      (sendBufferEmptyHandler s).1.deleted = true ∧
      (sendBufferEmptyHandler s).2 = [.unregisterEmptyEvent, .sessionDel] := by
  refine ⟨?_, ?_, rfl, rfl⟩
  · have key : ∀ (es : List SessionEvent) (t : HttpSession),
        SessionEvent.bufferEmptied ∉ es →
        t.deleted = false → (httpSessionRun t es).deleted = false := by
      intro es
      induction es with
      | nil => intro t _ ht; exact ht
      | cons e rest ih =>
          intro t hc ht
          have he : e ≠ SessionEvent.bufferEmptied := by
            intro h
            exact hc (h ▸ List.mem_cons_self e rest)
          have hrest : SessionEvent.bufferEmptied ∉ rest := by
            intro h
            exact hc (List.mem_cons_of_mem e h)
          have hstep : (httpSessionStep t e).deleted = false := by
            cases e with
            | graceful =>
                unfold httpSessionStep http_session_graceful_shutdown
                by_cases h : t.shutdownEvent <;> simp [h, ht]
            | bufferEmptied => exact absurd rfl he
          exact ih (httpSessionStep t e) hrest hstep
    have hnotin : SessionEvent.bufferEmptied ∉ events := by
      simpa using hev
    exact key events httpSessionInit hnotin rfl
  · unfold http_session_graceful_shutdown
    rw [hpend]
    rfl

/-- Witness for `http_session_graceful_shutdown_spec`: two shutdown
requests and no buffer-emptied event leave the session alive; the
pending-state no-op and the handler's release at a concrete pending
session. -/
theorem http_session_graceful_shutdown_spec_witness :
    ([SessionEvent.graceful, SessionEvent.graceful].contains
          SessionEvent.bufferEmptied = false ∧
        (HttpSession.mk true false).shutdownEvent = true) ∧
      ((httpSessionRun httpSessionInit
            [SessionEvent.graceful, SessionEvent.graceful]).deleted
          = false ∧
        http_session_graceful_shutdown (HttpSession.mk true false)
          = (HttpSession.mk true false, []) ∧
        (sendBufferEmptyHandler (HttpSession.mk true false)).1.deleted
          = true ∧
        (sendBufferEmptyHandler (HttpSession.mk true false)).2
          = [.unregisterEmptyEvent, .sessionDel]) :=
  ⟨⟨by decide, by decide⟩,
    http_session_graceful_shutdown_spec
      [SessionEvent.graceful, SessionEvent.graceful]
      (HttpSession.mk true false) (by decide) (by decide)⟩

/-! ## Per-stream watchdog expiry handlers

Two variants exist in the source: `_timeout` in
`src/samples/libev/http2d/stream.c` and `stream_timeout` in
`src/py/http2/http2/stream.c`.  Each handler's side effects are
recorded as an action list; the conditions read from the external
codec (`session_should_close`) are explicit boolean parameters. -/

inductive TimeoutAction where
  | stopRecvTimer (streamId : Nat)
  | stopSendTimer (streamId : Nat)
  | watchdogStopAct (watchdogId : Nat)
  | submitRstStream (streamId : Nat)
  | sessionSend
  | sessionShutdown (errorCode : Nat)
  | sessionClose
deriving DecidableEq, Repr

/-- `_timeout` from `src/samples/libev/http2d/stream.c`: stop the
stream's recv and send timers, submit `RST_STREAM` with
`NGHTTP2_INTERNAL_ERROR` for that stream id — and then call
`http_session_shutdown(session, 0)` on the whole session. -/
def httpd_stream_timeout (streamId : Nat) : List TimeoutAction :=
  [.stopRecvTimer streamId, .stopSendTimer streamId,
    .submitRstStream streamId, .sessionShutdown 0]

/-- `recv_watchdog_id` from `src/py/http2/http2/session.c`. -/
def recv_watchdog_id (streamId : Nat) : Nat :=
  streamId * 10 + 1

/-- `send_watchdog_id` from `src/py/http2/http2/session.c`. -/
def send_watchdog_id (streamId : Nat) : Nat :=
  streamId * 10 + 2

/-- `stream_timeout` from `src/py/http2/http2/stream.c`: recover the
stream id as `watchdog_id / 10`, stop both of that stream's watchdogs
(errors only logged), submit `RST_STREAM` for that stream id, run
`nghttp2_session_send`, and close the session only if
`session_should_close` reports the codec wants neither read nor write
(`shouldClose`). -/
def stream_timeout (watchdogId : Nat) (shouldClose : Bool) :
    List TimeoutAction :=
  let streamId := watchdogId / 10
  [.watchdogStopAct (recv_watchdog_id streamId),
    .watchdogStopAct (send_watchdog_id streamId),
    .submitRstStream streamId, .sessionSend]
  ++ (if shouldClose then [.sessionClose] else [])

/-- C2 (corrected), counterexample: the http2d expiry handler
`_timeout` for stream 7 *does* initiate shutdown of the whole session —
it ends by calling `http_session_shutdown(session, 0)` — contradicting
the claim that the handler resets only that stream. -/
theorem httpd_stream_timeout_shuts_down_session :
    (httpd_stream_timeout 7).contains (.sessionShutdown 0) = true := by
  decide

/-- C2 (corrected), amended claim: for every stream whose recv- or
send-watchdog expires, the expiry handler stops that stream's watchdog
timers and submits a `RST_STREAM` frame for that stream id — the
`src/py/http2` handler `stream_timeout`, invoked with either the
recv-watchdog id `10*s+1` or the send-watchdog id `10*s+2`
(`stream_on_open` registers it as the callback of both), recovers the
stream id as `watchdog_id / 10`, touches no other stream, and
initiates a session close only when the codec already reports the
session should close (in particular it never tears the session down
while the codec still wants I/O) — whereas the
`src/samples/libev/http2d` handler `_timeout` additionally initiates
shutdown of the whole session. -/
theorem stream_timeout_resets_stream (streamId : Nat)
    (shouldClose : Bool) :
    stream_timeout (recv_watchdog_id streamId) shouldClose
        = [.watchdogStopAct (recv_watchdog_id streamId),
            .watchdogStopAct (send_watchdog_id streamId),
            .submitRstStream streamId, .sessionSend]
          ++ (if shouldClose then [.sessionClose] else []) ∧
      stream_timeout (send_watchdog_id streamId) shouldClose
        = [.watchdogStopAct (recv_watchdog_id streamId),
            .watchdogStopAct (send_watchdog_id streamId),
            .submitRstStream streamId, .sessionSend]
          ++ (if shouldClose then [.sessionClose] else []) ∧
      stream_timeout (recv_watchdog_id streamId) false
        = [.watchdogStopAct (recv_watchdog_id streamId),
            .watchdogStopAct (send_watchdog_id streamId),
            .submitRstStream streamId, .sessionSend] ∧
      stream_timeout (send_watchdog_id streamId) false
        = [.watchdogStopAct (recv_watchdog_id streamId),
            .watchdogStopAct (send_watchdog_id streamId),
            .submitRstStream streamId, .sessionSend] ∧
      httpd_stream_timeout streamId
        = [.stopRecvTimer streamId, .stopSendTimer streamId,
            .submitRstStream streamId, .sessionShutdown 0] := by
  have hdivr : recv_watchdog_id streamId / 10 = streamId := by
    unfold recv_watchdog_id
    omega
  have hdivs : send_watchdog_id streamId / 10 = streamId := by
    unfold send_watchdog_id
    omega
  refine ⟨?_, ?_, ?_, ?_, rfl⟩
  · unfold stream_timeout
    rw [hdivr]
  · unfold stream_timeout
    rw [hdivs]
  · unfold stream_timeout
    rw [hdivr]
    rfl
  · unfold stream_timeout
    rw [hdivs]
    rfl

/-! ## Watchdog registry and `stream_on_send_frame`
(`src/py/http2/http2/stream.c`)

The watchdog registry itself (`watchdog_add` / `watchdog_start` /
`watchdog_stop` / `watchdog_restart` / `watchdog_restart_if_started` /
`watchdog_exist`) is code of this repository that is not under `src/`
— only its callers and the error codes are — so the registry is
modelled from the spec (§4.3) below.  `stream_on_send_frame` and
`is_blocked` themselves are embedded from the source. -/

/-- Modelled from the spec: a watchdog of the WatchdogRegistry —
`{id, timeout duration, callback, armed flag}`; the callback is
irrelevant here; `remaining` is the time left until expiry, so that
(re)arming with a fresh full timeout is observable. -/
structure Watchdog where
  timeout : Nat
  armed : Bool
  remaining : Nat
deriving DecidableEq, Repr

/-- Modelled from the spec: the registry maps unique ids to watchdogs
(flat id space `stream_id * 10 + slot`). -/
def WatchdogRegistry := List (Nat × Watchdog)

/-- Lookup a watchdog by id. -/
def wlookup : WatchdogRegistry → Nat → Option Watchdog
  | [], _ => none
  | (k, w) :: rest, id => if k = id then some w else wlookup rest id

/-- Update the watchdog stored under an id, if present. -/
def wupdate : WatchdogRegistry → Nat → (Watchdog → Watchdog) →
    WatchdogRegistry
  | [], _, _ => []
  | (k, w) :: rest, id, f =>
      if k = id then (k, f w) :: rest else (k, w) :: wupdate rest id f

/-- `HTTP2_ERROR_WATCHDOG_NOT_FOUND` from `src/py/http2/http2/lib.h`. -/
def HTTP2_ERROR_WATCHDOG_NOT_FOUND : Int := -6

/-- `NGHTTP2_ERR_CALLBACK_FAILURE` (nghttp2). -/
def NGHTTP2_ERR_CALLBACK_FAILURE : Int := -902

/-- Modelled from the spec: `exists(id)`. -/
def watchdog_exist (reg : WatchdogRegistry) (id : Nat) : Bool :=
  (wlookup reg id).isSome

/-- Modelled from the spec: `start(id)` — arm/re-arm with a fresh full
timeout; error if the id is absent. -/
def watchdog_start (reg : WatchdogRegistry) (id : Nat) :
    Except Int WatchdogRegistry :=
  match wlookup reg id with
  | none => .error HTTP2_ERROR_WATCHDOG_NOT_FOUND
  | some _ => .ok (wupdate reg id
      (fun w => { w with armed := true, remaining := w.timeout }))

/-- Modelled from the spec: `stop(id)` — idempotent disarm; error if
the id is absent. -/
def watchdog_stop (reg : WatchdogRegistry) (id : Nat) :
    Except Int WatchdogRegistry :=
  match wlookup reg id with
  | none => .error HTTP2_ERROR_WATCHDOG_NOT_FOUND
  | some _ => .ok (wupdate reg id (fun w => { w with armed := false }))

/-- Modelled from the spec: `restart(id)` — error if not currently
armed, otherwise re-arm with a fresh full timeout. -/
def watchdog_restart (reg : WatchdogRegistry) (id : Nat) :
    Except Int WatchdogRegistry :=
  match wlookup reg id with
  | none => .error HTTP2_ERROR_WATCHDOG_NOT_FOUND
  | some w =>
      if w.armed then
        .ok (wupdate reg id (fun w => { w with remaining := w.timeout }))
      else .error (-1)

/-- Modelled from the spec: `restart_if_started(id)` — success no-op if
disarmed, otherwise same as `restart`. -/
def watchdog_restart_if_started (reg : WatchdogRegistry) (id : Nat) :
    Except Int WatchdogRegistry :=
  match wlookup reg id with
  | none => .error HTTP2_ERROR_WATCHDOG_NOT_FOUND
  | some w => if w.armed then watchdog_restart reg id else .ok reg

/-- `is_blocked` from `src/py/http2/http2/stream.c`: true when the
codec reports the stream-level or the connection-level remote
flow-control window exhausted (`<= 0`); the two window sizes the codec
reports are explicit parameters. -/
def is_blocked (streamWindow connWindow : Int) : Bool :=
  if streamWindow ≤ 0 then true
  else if connWindow ≤ 0 then true
  else false

/-- `stream_on_send_frame` from `src/py/http2/http2/stream.c`: on
frame-send completion, if the stream's recv watchdog no longer exists,
do nothing; otherwise (the send watchdog must exist — the `expect`
abort is `none`): end-of-stream stops the send watchdog; a blocked
window restarts the recv watchdog if armed and starts the send
watchdog; otherwise the recv watchdog is restarted if armed and the
send watchdog stopped.  A registry-op error makes the callback return
`NGHTTP2_ERR_CALLBACK_FAILURE` with the mutations made so far kept. -/
def stream_on_send_frame (reg : WatchdogRegistry) (streamId : Nat)
    (endStream : Bool) (streamWindow connWindow : Int) :
    Option (Int × WatchdogRegistry) :=
  let recvId := recv_watchdog_id streamId
  if watchdog_exist reg recvId = false then some (0, reg)
  else
    let sendId := send_watchdog_id streamId
    if watchdog_exist reg sendId = false then none
    else if endStream then
      match watchdog_stop reg sendId with
      | .ok r => some (0, r)
      | .error _ => some (NGHTTP2_ERR_CALLBACK_FAILURE, reg)
    else if is_blocked streamWindow connWindow then
      match watchdog_restart_if_started reg recvId with
      | .error _ => some (NGHTTP2_ERR_CALLBACK_FAILURE, reg)
      | .ok r1 =>
          match watchdog_start r1 sendId with
          | .error _ => some (NGHTTP2_ERR_CALLBACK_FAILURE, r1)
          | .ok r2 => some (0, r2)
    else
      match watchdog_restart_if_started reg recvId with
      | .error _ => some (NGHTTP2_ERR_CALLBACK_FAILURE, reg)
      | .ok r1 =>
          match watchdog_stop r1 sendId with
          | .error _ => some (NGHTTP2_ERR_CALLBACK_FAILURE, r1)
          | .ok r2 => some (0, r2)

/-! ### Helper lemmas about the registry -/

theorem wlookup_wupdate_self (reg : WatchdogRegistry) (id : Nat)
    (f : Watchdog → Watchdog) :
    wlookup (wupdate reg id f) id = (wlookup reg id).map f := by
  induction reg with
  | nil => rfl
  | cons kw rest ih =>
      obtain ⟨k, w⟩ := kw
      by_cases h : k = id <;> simp [wlookup, wupdate, h, ih]

theorem wlookup_wupdate_other (reg : WatchdogRegistry) (id id2 : Nat)
    (f : Watchdog → Watchdog) (h : id ≠ id2) :
    wlookup (wupdate reg id f) id2 = wlookup reg id2 := by
  induction reg with
  | nil => rfl
  | cons kw rest ih =>
      obtain ⟨k, w⟩ := kw
      by_cases hk : k = id
      · subst hk
        simp [wlookup, wupdate, h]
      · simp [wlookup, wupdate, hk, ih]

theorem watchdog_restart_if_started_eq (reg : WatchdogRegistry) (id : Nat)
    (wr : Watchdog) (h : wlookup reg id = some wr) :
    watchdog_restart_if_started reg id
      = .ok (if wr.armed
          then wupdate reg id (fun w => { w with remaining := w.timeout })
          else reg) := by
  unfold watchdog_restart_if_started watchdog_restart
  rw [h]
  by_cases ha : wr.armed <;> simp [ha, h]

/-- The registry after `restart_if_started` on the recv watchdog:
the recv entry got a fresh timeout iff it was armed, the others are
untouched. -/
theorem restartIf_lookup_self (reg : WatchdogRegistry) (id : Nat)
    (wr : Watchdog) (h : wlookup reg id = some wr) :
    wlookup (if wr.armed
        then wupdate reg id (fun w => { w with remaining := w.timeout })
        else reg) id
      = some (if wr.armed then { wr with remaining := wr.timeout }
          else wr) := by
  by_cases ha : wr.armed <;>
    simp [ha, wlookup_wupdate_self, h]

theorem restartIf_lookup_other (reg : WatchdogRegistry) (id id2 : Nat)
    (wr : Watchdog) (h : id ≠ id2) :
    wlookup (if wr.armed
        then wupdate reg id (fun w => { w with remaining := w.timeout })
        else reg) id2
      = wlookup reg id2 := by
  by_cases ha : wr.armed <;>
    simp [ha, wlookup_wupdate_other reg id id2 _ h]

/-- C4 (confirmed, registry spec-modelled): on a frame-send completion
for a stream whose recv watchdog still exists (and whose send watchdog
exists, as `stream_on_send_frame` `expect`s): with the end-of-stream
flag set, the send watchdog is stopped and the recv watchdog is left
untouched; otherwise with the stream- or connection-level window
exhausted, the recv watchdog is restarted (fresh full timeout) iff it
is currently armed and the send watchdog is started; otherwise the
recv watchdog is restarted iff currently armed and the send watchdog
is stopped.  In all cases the callback succeeds (returns 0). -/
theorem stream_on_send_frame_spec (reg : WatchdogRegistry)
    (streamId : Nat) (endStream : Bool) (streamWindow connWindow : Int)
    (wr ws : Watchdog)
    (hr : wlookup reg (recv_watchdog_id streamId) = some wr)
    (hs : wlookup reg (send_watchdog_id streamId) = some ws) :
    ∃ reg',
      stream_on_send_frame reg streamId endStream streamWindow connWindow
          = some (0, reg') ∧
        (endStream = true →
          wlookup reg' (send_watchdog_id streamId)
              = some { ws with armed := false } ∧
            wlookup reg' (recv_watchdog_id streamId) = some wr) ∧
        (endStream = false →
          wlookup reg' (recv_watchdog_id streamId)
              = some (if wr.armed then { wr with remaining := wr.timeout }
                  else wr) ∧
            wlookup reg' (send_watchdog_id streamId)
              = some (if is_blocked streamWindow connWindow
                  then { ws with armed := true, remaining := ws.timeout }
                  else { ws with armed := false })) := by
  have hne : recv_watchdog_id streamId ≠ send_watchdog_id streamId := by
    unfold recv_watchdog_id send_watchdog_id
    omega
  have hexr : watchdog_exist reg (recv_watchdog_id streamId) = true := by
    simp [watchdog_exist, hr]
  have hexs : watchdog_exist reg (send_watchdog_id streamId) = true := by
    simp [watchdog_exist, hs]
  cases endStream with
  | true =>
      refine ⟨wupdate reg (send_watchdog_id streamId)
        (fun w => { w with armed := false }), ?_, ?_, ?_⟩
      · unfold stream_on_send_frame
        simp [hexr, hexs, watchdog_stop, hs]
      · intro _
        refine ⟨?_, ?_⟩
        · rw [wlookup_wupdate_self, hs]
          rfl
        · rw [wlookup_wupdate_other _ _ _ _ (Ne.symm hne), hr]
      · intro h
        exact absurd h (by simp)
  | false =>
      have hr1 := watchdog_restart_if_started_eq reg
        (recv_watchdog_id streamId) wr hr
      have hlr := restartIf_lookup_self reg (recv_watchdog_id streamId)
        wr hr
      have hls := restartIf_lookup_other reg (recv_watchdog_id streamId)
        (send_watchdog_id streamId) wr hne
      rw [hs] at hls
      by_cases hb : is_blocked streamWindow connWindow = true
      · refine ⟨wupdate (if wr.armed
            then wupdate reg (recv_watchdog_id streamId)
              (fun w => { w with remaining := w.timeout })
            else reg) (send_watchdog_id streamId)
            (fun w => { w with armed := true, remaining := w.timeout }),
          ?_, ?_, ?_⟩
        · unfold stream_on_send_frame
          simp [hexr, hexs, hb, hr1, watchdog_start, hls]
        · intro h
          exact absurd h (by simp)
        · intro _
          refine ⟨?_, ?_⟩
          · rw [wlookup_wupdate_other _ _ _ _ (Ne.symm hne), hlr]
          · rw [wlookup_wupdate_self, hls, hb]
            rfl
      · have hb' : is_blocked streamWindow connWindow = false := by
          simpa using hb
        refine ⟨wupdate (if wr.armed
            then wupdate reg (recv_watchdog_id streamId)
              (fun w => { w with remaining := w.timeout })
            else reg) (send_watchdog_id streamId)
            (fun w => { w with armed := false }),
          ?_, ?_, ?_⟩
        · unfold stream_on_send_frame
          simp [hexr, hexs, hb', hr1, watchdog_stop, hls]
        · intro h
          exact absurd h (by simp)
        · intro _
          refine ⟨?_, ?_⟩
          · rw [wlookup_wupdate_other _ _ _ _ (Ne.symm hne), hlr]
          · rw [wlookup_wupdate_self, hls, hb']
            rfl

/-- Witness for `stream_on_send_frame_spec`: stream 3 with an armed
recv watchdog half-expired and a disarmed send watchdog, blocked on a
zero connection window — the recv watchdog is restarted to its full
timeout and the send watchdog is armed. -/
theorem stream_on_send_frame_spec_witness :
    (wlookup [(31, Watchdog.mk 10 true 4), (32, Watchdog.mk 10 false 0)]
          (recv_watchdog_id 3) = some (Watchdog.mk 10 true 4) ∧
        wlookup [(31, Watchdog.mk 10 true 4), (32, Watchdog.mk 10 false 0)]
          (send_watchdog_id 3) = some (Watchdog.mk 10 false 0)) ∧
      ∃ reg',
        stream_on_send_frame
            [(31, Watchdog.mk 10 true 4), (32, Watchdog.mk 10 false 0)]
            3 false 5 0 = some (0, reg') ∧
          (false = true →
            wlookup reg' (send_watchdog_id 3)
                = some (Watchdog.mk 10 false 0) ∧
              wlookup reg' (recv_watchdog_id 3)
                = some (Watchdog.mk 10 true 4)) ∧
          (false = false →
            wlookup reg' (recv_watchdog_id 3)
                = some (if (Watchdog.mk 10 true 4).armed
                    then Watchdog.mk 10 true 10
                    else Watchdog.mk 10 true 4) ∧
              wlookup reg' (send_watchdog_id 3)
                = some (if is_blocked 5 0
                    then Watchdog.mk 10 true 10
                    else Watchdog.mk 10 false 0)) :=
  ⟨⟨by decide, by decide⟩,
    stream_on_send_frame_spec
      [(31, Watchdog.mk 10 true 4), (32, Watchdog.mk 10 false 0)]
      3 false 5 0 (Watchdog.mk 10 true 4) (Watchdog.mk 10 false 0)
      (by decide) (by decide)⟩

end Garage
